import Mathlib

/-!
Shallow embedding of the ruuviscanner RuuviTag Data Format 5 decoder and its
accessors (`src/ruuvitag.rs`), together with the signal-callback logic of
`subscribe_ruuvitag`.

Conventions of the embedding:
* `u8`/`u16` values are `Nat` (ranges stated as hypotheses where needed),
  `i8`/`i16`/`i32` values are `Int`;
* Rust `as` casts and wrapping machine arithmetic are explicit
  (`u16_as_i16`, `i64_as_u8`, `u16_as_i8`, `i32_wrap`, `i8_wrap`, mod `2^w`);
* fallible dbus extraction is modelled by `DecodeResult`, whose `panic`
  constructor stands for a Rust panic (a failed `.unwrap()` or a failed
  `HashMap` index);
* `f64` arithmetic in `temperature_in_celcius` and `get_humidity` is modelled
  over `ℚ` (the operands involved in the claims are exactly representable).
-/

namespace Ruuviscanner

/-- Model of a dbus `RefArg` tree: an integer-like value (answers `as_i64`),
an iterable value (answers `as_iter`; dbus `Variant`s and arrays both iterate
over their contents), or anything else (answers neither). -/
inductive RefArg : Type where
  | int (v : Int)
  | list (xs : List RefArg)
  | other

/-- dbus `RefArg::as_iter`: iterables yield their elements, everything else
yields `None`. -/
def RefArg.as_iter : RefArg → Option (List RefArg)
  | .list xs => some xs
  | _ => none

/-- dbus `RefArg::as_i64`: integer-like values yield their value, everything
else yields `None`. -/
def RefArg.as_i64 : RefArg → Option Int
  | .int v => some v
  | _ => none

/-- `arg::PropMap`: a string-keyed map of property values (the `Variant`
wrapper `.0` is modelled by storing the inner `RefArg` directly). -/
def PropMap : Type := List (String × RefArg)

/-- `HashMap` lookup; indexing a missing key in Rust panics, so callers match
`none` to a panic. -/
def PropMap.find : PropMap → String → Option RefArg
  | [], _ => none
  | (k, v) :: rest, key => if k = key then some v else PropMap.find rest key

/-- Result of running fallible Rust code: `Ok`, `Err`, or a panic. -/
inductive DecodeResult (α : Type) : Type where
  | ok (a : α)
  | err (msg : String)
  | panic
deriving DecidableEq

/-- `true` exactly on `err`. -/
def DecodeResult.isErr {α : Type} : DecodeResult α → Bool
  | .err _ => true
  | _ => false

/-- The `Ok` payload, if any. -/
def DecodeResult.toOption {α : Type} : DecodeResult α → Option α
  | .ok a => some a
  | _ => none

/-- `const BATTERY_OFFSET: u16 = 1600;` -/
def BATTERY_OFFSET : Nat := 1600

/-- `const TX_POWER_OFFSET: i8 = -40;` -/
def TX_POWER_OFFSET : Int := -40

/-- `fn join_u8(left: u8, right: u8) -> u16 { (left as u16) << 8 | right as u16 }`
(the `u8 → u16` casts are lossless, so the arguments appear directly). -/
def join_u8 (left right : Nat) : Nat := (left <<< 8) ||| right

/-- Rust `as i16` reinterpretation of a `u16` bit pattern (two's complement). -/
def u16_as_i16 (n : Nat) : Int :=
  if n % 65536 < 32768 then (n % 65536 : Int) else (n % 65536 : Int) - 65536

/-- Rust `as i8` truncating cast of a `u16` value (two's complement). -/
def u16_as_i8 (n : Nat) : Int :=
  if n % 256 < 128 then (n % 256 : Int) else (n % 256 : Int) - 256

/-- Rust `as u8` truncating cast of an `i64` value. -/
def i64_as_u8 (v : Int) : Nat := (v % 256).toNat

/-- Two's-complement wrap-around of `i32` arithmetic. -/
def i32_wrap (v : Int) : Int := (v + 2147483648) % 4294967296 - 2147483648

/-- Two's-complement wrap-around of `i8` arithmetic. -/
def i8_wrap (v : Int) : Int := (v + 128) % 256 - 128

/-- `i32::try_from` on an integer value. -/
def i32_try_from (v : Int) : Option Int :=
  if -2147483648 ≤ v ∧ v ≤ 2147483647 then some v else none

/-- `struct Acceleration { x: i16, y: i16, z: i16 }` -/
structure Acceleration : Type where
  x : Int
  y : Int
  z : Int
deriving DecidableEq

/-- `Acceleration::new` -/
def Acceleration.new (x y z : Int) : Acceleration := ⟨x, y, z⟩

/-- `struct SensorDataV5` — raw fields exactly as stored by the Rust struct
(`temperature : i16`, `humidity pressure power_info measurement_number : u16`,
`movement_counter : u8`, `mac : [u8; 6]`). -/
structure SensorDataV5 : Type where
  temperature : Int
  humidity : Nat
  pressure : Nat
  acceleration : Acceleration
  power_info : Nat
  movement_counter : Nat
  measurement_number : Nat
  mac : List Nat
deriving DecidableEq

/-- `SensorDataV5::new` -/
def SensorDataV5.new (temperature : Int) (humidity pressure : Nat)
    (acceleration : Acceleration) (power_info movement_counter measurement_number : Nat)
    (mac : List Nat) : SensorDataV5 :=
  ⟨temperature, humidity, pressure, acceleration, power_info, movement_counter,
    measurement_number, mac⟩

/-- The byte-collection loop of `from_dbus_changed_properties`:
`for item in manufacturer_data.as_iter().unwrap() { temp.push(item.as_i64().unwrap() as u8); }`.
`none` models the panic of `item.as_i64().unwrap()` on a non-integer item. -/
def collectBytes : List RefArg → Option (List Nat)
  | [] => some []
  | item :: rest =>
    match item.as_i64 with
    | none => none
    | some v =>
      match collectBytes rest with
      | none => none
      | some temp => some (i64_as_u8 v :: temp)

/-- The field-extraction block of `from_dbus_changed_properties`
(`src/ruuvitag.rs:152-176`), run after `temp.len() == 24` is established.
`temp[0]` is bound to `_data_format` and otherwise unused. -/
def SensorDataV5.decodePayload (temp : List Nat) : SensorDataV5 :=
  { temperature := u16_as_i16 (join_u8 (temp.getD 1 0) (temp.getD 2 0))
    humidity := join_u8 (temp.getD 3 0) (temp.getD 4 0)
    pressure := join_u8 (temp.getD 5 0) (temp.getD 6 0)
    acceleration :=
      { x := u16_as_i16 (join_u8 (temp.getD 7 0) (temp.getD 8 0))
        y := u16_as_i16 (join_u8 (temp.getD 9 0) (temp.getD 10 0))
        z := u16_as_i16 (join_u8 (temp.getD 11 0) (temp.getD 12 0)) }
    power_info := join_u8 (temp.getD 13 0) (temp.getD 14 0)
    movement_counter := temp.getD 15 0
    measurement_number := join_u8 (temp.getD 16 0) (temp.getD 17 0)
    mac := [temp.getD 18 0, temp.getD 19 0, temp.getD 20 0,
            temp.getD 21 0, temp.getD 22 0, temp.getD 23 0] }

/-- `SensorDataV5::from_dbus_changed_properties` (`src/ruuvitag.rs:133-177`).
Each `.unwrap()` of the Rust source (and the `HashMap` index of a possibly
missing `"ManufacturerData"` key) becomes a `.panic` branch; the two explicit
`return Err(...)` sites become `.err` branches (the Rust messages interpolate
the offending data; the messages here keep only the fixed text). -/
def SensorDataV5.from_dbus_changed_properties (changed_properties : PropMap) :
    DecodeResult SensorDataV5 :=
  match PropMap.find changed_properties "ManufacturerData" with
  | none => .panic
  | some v =>
    match v.as_iter with
    | none => .err "ManufacturerData couldn't be collected"
    | some data =>
      if data.length ≠ 2 then .err "Missing data in changed_properties"
      else
        match (data.getD 1 .other).as_iter with
        | none => .panic
        | some variantItems =>
          match variantItems.head? with
          | none => .panic
          | some manufacturer_data =>
            match manufacturer_data.as_iter with
            | none => .panic
            | some items =>
              match collectBytes items with
              | none => .panic
              | some temp =>
                if temp.length ≠ 24 then .err "Missing manufacturer data"
                else .ok (SensorDataV5.decodePayload temp)

/-- `temperature_in_millicelcius`: `i32::try_from(self.temperature).unwrap() * 5`.
`none` models the unwrap panic; the `i32` multiplication wraps. -/
def SensorDataV5.temperature_in_millicelcius (s : SensorDataV5) : Option Int :=
  (i32_try_from s.temperature).map (fun t => i32_wrap (t * 5))

/-- `temperature_in_celcius`: `self.temperature_in_millicelcius() as f64 / 1000_f64`,
modelled over `ℚ`. -/
def SensorDataV5.temperature_in_celcius (s : SensorDataV5) : Option ℚ :=
  s.temperature_in_millicelcius.map (fun m => (m : ℚ) / 1000)

/-- `get_humidity`: `self.humidity as f64 / 400_f64`, modelled over `ℚ`. -/
def SensorDataV5.get_humidity (s : SensorDataV5) : ℚ := (s.humidity : ℚ) / 400

/-- `get_pressure`: `50000 + self.pressure as u32` (`u32` addition wraps). -/
def SensorDataV5.get_pressure (s : SensorDataV5) : Nat :=
  (50000 + s.pressure) % 4294967296

/-- `get_acceleration_in_mg`: returns the stored acceleration. -/
def SensorDataV5.get_acceleration_in_mg (s : SensorDataV5) : Acceleration :=
  s.acceleration

/-- `get_battery_voltage`: `(power_info >> 5) + BATTERY_OFFSET` in `u16`
arithmetic (the addition wraps mod `2^16`). -/
def SensorDataV5.get_battery_voltage (s : SensorDataV5) : Nat :=
  ((s.power_info >>> 5) + BATTERY_OFFSET) % 65536

/-- `get_tx_power`: `(power_info & 0x1f) as i8 * 2 + TX_POWER_OFFSET` in `i8`
arithmetic (both the multiplication and the addition wrap). -/
def SensorDataV5.get_tx_power (s : SensorDataV5) : Int :=
  i8_wrap (i8_wrap (u16_as_i8 (s.power_info &&& 0x1f) * 2) + TX_POWER_OFFSET)

/-- The sixteen digits produced by Rust `{:02X}` formatting. -/
def hexDigits : List Char :=
  ['0', '1', '2', '3', '4', '5', '6', '7', '8', '9', 'A', 'B', 'C', 'D', 'E', 'F']

/-- `format!("{:02X}", x)` for a `u8` value: exactly two uppercase hex digits. -/
def byte_to_hex (b : Nat) : String :=
  String.mk [hexDigits.getD ((b % 256) / 16) '0', hexDigits.getD (b % 16) '0']

/-- `mac_as_str`: each octet rendered with `{:02X}` and joined by `":"`. -/
def SensorDataV5.mac_as_str (s : SensorDataV5) : String :=
  String.intercalate ":" (s.mac.map byte_to_hex)

/-- Outcome of one invocation of the `match_signal` closure of
`subscribe_ruuvitag` (`src/ruuvitag.rs:70-81`): either the decoded reading is
sent and the closure returns `true` ("continue"), or the closure panics. -/
inductive CallbackOutcome : Type where
  | cont (sent : SensorDataV5)
  | panicked
deriving DecidableEq

/-- The `match_signal` closure body:
`SensorDataV5::from_dbus_changed_properties(h.changed_properties).unwrap()`
followed by `tx.send(tag_data).unwrap(); true`. The `.unwrap()` on the decode
result turns any decode `Err` into a panic. (The send is modelled as
succeeding: the claim concerns decode failures, not a dropped receiver.) -/
def signal_callback (h : PropMap) : CallbackOutcome :=
  match SensorDataV5.from_dbus_changed_properties h with
  | .ok tag_data => .cont tag_data
  | .err _ => .panicked
  | .panic => .panicked

/-- The background polling loop of `subscribe_ruuvitag` (`src/ruuvitag.rs:83-87`)
applied to a finite trace of notification events: `conn.process` dispatches
each event to the signal callback; a panic inside the callback propagates and
kills the spawned task (`none`), otherwise the loop keeps running and the sent
readings accumulate in order. -/
def process_loop : List PropMap → Option (List SensorDataV5)
  | [] => some []
  | e :: rest =>
    match signal_callback e with
    | .cont d => (process_loop rest).map (fun l => d :: l)
    | .panicked => none

/-- A well-shaped dbus `PropertiesChanged` envelope: `ManufacturerData` holds a
two-element iterable of the manufacturer key and a `Variant` wrapping the
single byte-payload list. -/
def mkEnvelope (key : RefArg) (payload : List Int) : PropMap :=
  [("ManufacturerData", RefArg.list [key, RefArg.list [RefArg.list (payload.map RefArg.int)]])]

/-- The RuuviTag Data Format 5 reference vector from the specification. -/
def referenceVector : List Int :=
  [0x05, 0x12, 0xFC, 0x53, 0x94, 0xC3, 0x7C, 0x00, 0x04, 0xFF, 0xFC, 0x04,
   0x0C, 0xAC, 0x36, 0x42, 0x00, 0xCD, 0xCB, 0xB8, 0x33, 0x4C, 0x88, 0x4F]

/-- A `SensorDataV5` whose raw fields all lie in the ranges of the Rust
machine types of the struct. -/
abbrev SensorDataV5.WellFormed (s : SensorDataV5) : Prop :=
  -32768 ≤ s.temperature ∧ s.temperature ≤ 32767 ∧
  s.humidity < 65536 ∧ s.pressure < 65536 ∧
  -32768 ≤ s.acceleration.x ∧ s.acceleration.x ≤ 32767 ∧
  -32768 ≤ s.acceleration.y ∧ s.acceleration.y ≤ 32767 ∧
  -32768 ≤ s.acceleration.z ∧ s.acceleration.z ≤ 32767 ∧
  s.power_info < 65536 ∧ s.movement_counter < 256 ∧
  s.measurement_number < 65536 ∧
  s.mac.length = 6 ∧ ∀ b ∈ s.mac, b < 256

/-- A sensor value with a given raw `power_info` word and all other fields
zero, used to instantiate packed-field claims. -/
def mkPower (p : Nat) : SensorDataV5 :=
  ⟨0, 0, 0, ⟨0, 0, 0⟩, p, 0, 0, [0, 0, 0, 0, 0, 0]⟩

/-! ## Helper lemmas shared by several claims -/

lemma collectBytes_map_int (l : List Int) :
    collectBytes (l.map RefArg.int) = some (l.map i64_as_u8) := by
  induction l with
  | nil => rfl
  | cons x xs ih => simp [collectBytes, RefArg.as_i64, ih]

lemma decode_mkEnvelope (k : RefArg) (payload : List Int) :
    SensorDataV5.from_dbus_changed_properties (mkEnvelope k payload) =
      if payload.length ≠ 24 then DecodeResult.err "Missing manufacturer data"
      else DecodeResult.ok (SensorDataV5.decodePayload (payload.map i64_as_u8)) := by
  simp [SensorDataV5.from_dbus_changed_properties, mkEnvelope, PropMap.find,
    RefArg.as_iter, collectBytes_map_int, List.getD]

lemma decodePayload_cons (x y : Nat) (l : List Nat) :
    SensorDataV5.decodePayload (x :: l) = SensorDataV5.decodePayload (y :: l) := by
  simp [SensorDataV5.decodePayload, List.getD]

lemma get_battery_voltage_eq (s : SensorDataV5) (h : s.power_info < 65536) :
    s.get_battery_voltage = s.power_info / 32 + 1600 := by
  unfold SensorDataV5.get_battery_voltage BATTERY_OFFSET
  rw [Nat.shiftRight_eq_div_pow]
  have h32 : (2 : Nat) ^ 5 = 32 := by norm_num
  rw [h32, Nat.mod_eq_of_lt (by omega)]

lemma power_info_and_mask (s : SensorDataV5) :
    s.power_info &&& 0x1f = s.power_info % 32 := by
  have h := Nat.and_pow_two_sub_one_eq_mod s.power_info 5
  norm_num at h
  exact h

lemma get_tx_power_eq (s : SensorDataV5) :
    s.get_tx_power = (s.power_info % 32 : Int) * 2 - 40 := by
  unfold SensorDataV5.get_tx_power TX_POWER_OFFSET u16_as_i8 i8_wrap
  rw [power_info_and_mask s]
  have hm : s.power_info % 32 < 32 := Nat.mod_lt _ (by norm_num)
  rw [Nat.mod_eq_of_lt (by omega : s.power_info % 32 < 256)]
  rw [if_pos (by omega : s.power_info % 32 < 128)]
  omega

lemma temperature_mc_eq (s : SensorDataV5) (h1 : -32768 ≤ s.temperature)
    (h2 : s.temperature ≤ 32767) :
    s.temperature_in_millicelcius = some (s.temperature * 5) := by
  unfold SensorDataV5.temperature_in_millicelcius i32_try_from
  rw [if_pos (by omega : -2147483648 ≤ s.temperature ∧ s.temperature ≤ 2147483647)]
  show some (i32_wrap (s.temperature * 5)) = some (s.temperature * 5)
  unfold i32_wrap
  congr 1
  omega

lemma hexDigits_getD_mem (i : Nat) : hexDigits.getD i '0' ∈ hexDigits := by
  by_cases h : i < 16
  · interval_cases i <;> decide
  · rw [List.getD_eq_default]
    · decide
    · simp only [hexDigits, List.length_cons, List.length_nil]
      omega

/-! ## Claims -/

/-- C1 (counterexample): decoding the literal reference payload
`05 12 FC 53 94 C3 7C 00 04 FF FC 04 0C AC 36 42 00 CD CB B8 33 4C 88 4F`
yields the acceleration triple `(4, -4, 1036)` mG, which differs from the
`(1000, -1726, 714)` mG stated by the claim. -/
theorem claim_C1_counterexample :
    (SensorDataV5.from_dbus_changed_properties
          (mkEnvelope (RefArg.int 0x0499) referenceVector)).toOption.map
        (fun s => (s.acceleration.x, s.acceleration.y, s.acceleration.z)) =
      some (4, -4, 1036) ∧
    ((4 : Int), (-4 : Int), (1036 : Int)) ≠ ((1000 : Int), (-1726 : Int), (714 : Int)) := by
  exact ⟨by decide, by decide⟩

/-- C1 (amended): decoding the literal reference payload via
`from_dbus_changed_properties` and the accessors yields temperature 24300
millicelsius, humidity 53.49 %, pressure 100044 Pa, acceleration
`(4, -4, 1036)` mG, battery 2977 mV, tx power 4 dBm, movement counter 66 and
measurement sequence number 205. -/
theorem claim_C1_reference_vector :
    ∃ s : SensorDataV5,
      SensorDataV5.from_dbus_changed_properties
          (mkEnvelope (RefArg.int 0x0499) referenceVector) = DecodeResult.ok s ∧
      s.temperature_in_millicelcius = some 24300 ∧
      s.get_humidity = (5349 : ℚ) / 100 ∧
      s.get_pressure = 100044 ∧
      s.get_acceleration_in_mg = ⟨4, -4, 1036⟩ ∧
      s.get_battery_voltage = 2977 ∧
      s.get_tx_power = 4 ∧
      s.movement_counter = 66 ∧
      s.measurement_number = 205 := by
  refine ⟨⟨4860, 21396, 50044, ⟨4, -4, 1036⟩, 44086, 66, 205,
    [0xCB, 0xB8, 0x33, 0x4C, 0x88, 0x4F]⟩, by decide, by decide, ?_,
    by decide, by decide, by decide, by decide, by decide, by decide⟩
  show ((21396 : Nat) : ℚ) / 400 = (5349 : ℚ) / 100
  norm_num

/-- C2: contrary to the claim, a notification event whose envelope fails to
decode makes the `match_signal` closure panic (the decode `Result` is
`.unwrap()`-ed at `src/ruuvitag.rs:72`), and that panic kills the spawned
polling task: a trace with one malformed event between two valid ones produces
no surviving loop state instead of two delivered readings. -/
theorem claim_C2_decode_failure_panics :
    signal_callback [("ManufacturerData", RefArg.other)] = CallbackOutcome.panicked ∧
    process_loop [mkEnvelope (RefArg.int 0x0499) referenceVector,
      [("ManufacturerData", RefArg.other)],
      mkEnvelope (RefArg.int 0x0499) referenceVector] = none := by
  exact ⟨rfl, rfl⟩

/-- C3: for every well-shaped envelope whose collected byte payload has length
different from 24, `from_dbus_changed_properties` returns `Err` (neither `Ok`
nor a panic), before any payload field is extracted. -/
theorem claim_C3_length_validation (k : RefArg) (payload : List Int)
    (h : payload.length ≠ 24) :
    (SensorDataV5.from_dbus_changed_properties
      (mkEnvelope k payload)).isErr = true := by
  rw [decode_mkEnvelope, if_pos h]
  rfl

/-- Witness for C3 at a 23-byte payload. -/
theorem claim_C3_witness :
    (List.replicate 23 (0 : Int)).length ≠ 24 ∧
    (SensorDataV5.from_dbus_changed_properties
      (mkEnvelope (RefArg.int 0x0499) (List.replicate 23 0))).isErr = true :=
  ⟨by decide, claim_C3_length_validation (RefArg.int 0x0499) (List.replicate 23 0) (by decide)⟩

/-- C4 (counterexample): an envelope whose `ManufacturerData` is a two-element
iterable whose second element is not a nested list makes
`from_dbus_changed_properties` panic (failed `.unwrap()` at
`src/ruuvitag.rs:143`) instead of returning `Err` as the claim states. -/
theorem claim_C4_counterexample :
    SensorDataV5.from_dbus_changed_properties
        [("ManufacturerData", RefArg.list [RefArg.int 0x0499, RefArg.int 5])] =
      DecodeResult.panic ∧
    (DecodeResult.panic : DecodeResult SensorDataV5).isErr = false := by
  exact ⟨rfl, rfl⟩

/-- C4 (amended): a `ManufacturerData` value that is not an iterable, or an
iterable whose element count differs from two, yields `Err`; a malformed
second element, by contrast, panics (see the counterexample). -/
theorem claim_C4_malformed_envelope :
    (∀ v : RefArg, v.as_iter = none →
      (SensorDataV5.from_dbus_changed_properties
        [("ManufacturerData", v)]).isErr = true) ∧
    (∀ xs : List RefArg, xs.length ≠ 2 →
      (SensorDataV5.from_dbus_changed_properties
        [("ManufacturerData", RefArg.list xs)]).isErr = true) := by
  constructor
  · intro v hv
    simp [SensorDataV5.from_dbus_changed_properties, PropMap.find, hv, DecodeResult.isErr]
  · intro xs hxs
    simp [SensorDataV5.from_dbus_changed_properties, PropMap.find, RefArg.as_iter, hxs,
      DecodeResult.isErr]

/-- Witness for C4 at a non-iterable value and at an empty iterable. -/
theorem claim_C4_witness :
    RefArg.other.as_iter = none ∧
    (SensorDataV5.from_dbus_changed_properties
      [("ManufacturerData", RefArg.other)]).isErr = true :=
  ⟨rfl, claim_C4_malformed_envelope.1 RefArg.other rfl⟩

/-- C5: for every sensor value whose raw temperature lies in the `i16` range,
`temperature_in_millicelcius` succeeds (the `i32::try_from` unwrap cannot
fail) and returns exactly five times the raw temperature, with no `i32`
overflow. -/
theorem claim_C5_temperature_widening (s : SensorDataV5)
    (h1 : -32768 ≤ s.temperature) (h2 : s.temperature ≤ 32767) :
    s.temperature_in_millicelcius = some (s.temperature * 5) :=
  temperature_mc_eq s h1 h2

/-- Witness for C5 at the `i16` minimum `0x8000 = -32768`, which yields
`-163840` millicelsius. -/
theorem claim_C5_witness :
    (-32768 : Int) ≤ (SensorDataV5.new (-32768) 0 0 ⟨0, 0, 0⟩ 0 0 0
      [0, 0, 0, 0, 0, 0]).temperature ∧
    (SensorDataV5.new (-32768) 0 0 ⟨0, 0, 0⟩ 0 0 0
      [0, 0, 0, 0, 0, 0]).temperature ≤ 32767 ∧
    (SensorDataV5.new (-32768) 0 0 ⟨0, 0, 0⟩ 0 0 0
      [0, 0, 0, 0, 0, 0]).temperature_in_millicelcius = some (-163840) :=
  ⟨by decide, by decide,
    (claim_C5_temperature_widening _ (by decide) (by decide)).trans (by decide)⟩

/-- C6: for every sensor value with a 16-bit `power_info`, the battery voltage
is `(power_info >> 5) + 1600` mV and the tx power is
`((power_info & 0x1F) * 2) - 40` dBm (stated arithmetically as `/ 32` and
`% 32`); in particular `power_info = 0x0000` gives 1600 mV and -40 dBm, and
`power_info = 0xFFFF` gives 3647 mV and 22 dBm. -/
theorem claim_C6_power_unpacking :
    (∀ s : SensorDataV5, s.power_info < 65536 →
      s.get_battery_voltage = s.power_info / 32 + 1600 ∧
      s.get_tx_power = (s.power_info % 32 : Int) * 2 - 40) ∧
    (mkPower 0x0000).get_battery_voltage = 1600 ∧
    (mkPower 0x0000).get_tx_power = -40 ∧
    (mkPower 0xFFFF).get_battery_voltage = 3647 ∧
    (mkPower 0xFFFF).get_tx_power = 22 := by
  refine ⟨fun s h => ⟨get_battery_voltage_eq s h, get_tx_power_eq s⟩, ?_, ?_, ?_, ?_⟩ <;> decide

/-- Witness for C6 at `power_info = 0xFFFF`. -/
theorem claim_C6_witness :
    (mkPower 0xFFFF).power_info < 65536 ∧
    (mkPower 0xFFFF).get_battery_voltage = (mkPower 0xFFFF).power_info / 32 + 1600 ∧
    (mkPower 0xFFFF).get_tx_power = ((mkPower 0xFFFF).power_info % 32 : Int) * 2 - 40 :=
  ⟨by decide, claim_C6_power_unpacking.1 (mkPower 0xFFFF) (by decide)⟩

/-- C7: on every well-formed sensor value, each accessor is total: the
`i32::try_from` unwrap inside `temperature_in_millicelcius` (and hence
`temperature_in_celcius`) succeeds, the `u16`, `i8` and `u32` arithmetic of
`get_battery_voltage`, `get_tx_power` and `get_pressure` never wraps, and
`get_acceleration_in_mg` returns the stored field unchanged. -/
theorem claim_C7_accessors_total (s : SensorDataV5) (h : s.WellFormed) :
    s.temperature_in_millicelcius.isSome = true ∧
    s.temperature_in_celcius.isSome = true ∧
    s.get_battery_voltage = (s.power_info >>> 5) + 1600 ∧
    s.get_tx_power = u16_as_i8 (s.power_info &&& 0x1f) * 2 + TX_POWER_OFFSET ∧
    s.get_pressure = 50000 + s.pressure ∧
    s.get_acceleration_in_mg = s.acceleration := by
  obtain ⟨ht1, ht2, -, hp, -, -, -, -, -, -, hpow, -, -, -, -⟩ := h
  have hmc : s.temperature_in_millicelcius = some (s.temperature * 5) :=
    temperature_mc_eq s ht1 ht2
  refine ⟨by rw [hmc]; rfl, ?_, ?_, ?_, ?_, rfl⟩
  · unfold SensorDataV5.temperature_in_celcius
    rw [hmc]
    rfl
  · rw [get_battery_voltage_eq s hpow, Nat.shiftRight_eq_div_pow]
  · rw [get_tx_power_eq s]
    unfold u16_as_i8 TX_POWER_OFFSET
    rw [power_info_and_mask s]
    have hm : s.power_info % 32 < 32 := Nat.mod_lt _ (by norm_num)
    rw [Nat.mod_eq_of_lt (by omega : s.power_info % 32 < 256)]
    rw [if_pos (by omega : s.power_info % 32 < 128)]
    omega
  · unfold SensorDataV5.get_pressure
    rw [Nat.mod_eq_of_lt (by omega)]

/-- Witness for C7 at the all-zero well-formed sensor value. -/
theorem claim_C7_witness :
    (mkPower 0).WellFormed ∧ (mkPower 0).temperature_in_millicelcius.isSome = true :=
  ⟨by decide, (claim_C7_accessors_total (mkPower 0) (by decide)).1⟩

/-- C8: every byte below 256 renders as exactly two characters drawn from the
uppercase hexadecimal alphabet, the alphabet contains only digits and
uppercase letters, and the MAC bytes `[0xCC, 0x6F, 0x70, 0xEE, 0x4C, 0xAD]`
render as the literal string `CC:6F:70:EE:4C:AD`. -/
theorem claim_C8_mac_formatting :
    (∀ b : Nat, b < 256 → ∃ c1 c2, c1 ∈ hexDigits ∧ c2 ∈ hexDigits ∧
      byte_to_hex b = String.mk [c1, c2]) ∧
    (∀ c ∈ hexDigits, c.isDigit ∨ c.isUpper) ∧
    SensorDataV5.mac_as_str
        ⟨0, 0, 0, ⟨0, 0, 0⟩, 0, 0, 0, [0xCC, 0x6F, 0x70, 0xEE, 0x4C, 0xAD]⟩ =
      "CC:6F:70:EE:4C:AD" := by
  refine ⟨?_, by decide, by decide⟩
  intro b hb
  exact ⟨hexDigits.getD ((b % 256) / 16) '0', hexDigits.getD (b % 16) '0',
    hexDigits_getD_mem _, hexDigits_getD_mem _, rfl⟩

/-- Witness for C8 at the byte `0xCC`. -/
theorem claim_C8_witness :
    (204 : Nat) < 256 ∧ ∃ c1 c2, c1 ∈ hexDigits ∧ c2 ∈ hexDigits ∧
      byte_to_hex 204 = String.mk [c1, c2] :=
  ⟨by decide, claim_C8_mac_formatting.1 204 (by decide)⟩

/-- C9: a well-shaped envelope with a 24-byte payload decodes to `Ok` whatever
the value of byte 0 (the format-version byte is never validated against 5),
and the decoded value does not depend on byte 0. -/
theorem claim_C9_format_version_ignored (k : RefArg) (b b' : Int)
    (rest : List Int) (h : rest.length = 23) :
    (SensorDataV5.from_dbus_changed_properties
      (mkEnvelope k (b :: rest))).toOption.isSome = true ∧
    SensorDataV5.from_dbus_changed_properties (mkEnvelope k (b :: rest)) =
      SensorDataV5.from_dbus_changed_properties (mkEnvelope k (b' :: rest)) := by
  have h24 : ¬((b :: rest).length ≠ 24) := by simp [h]
  have h24' : ¬((b' :: rest).length ≠ 24) := by simp [h]
  rw [decode_mkEnvelope, decode_mkEnvelope, if_neg h24, if_neg h24']
  constructor
  · rfl
  · simp only [List.map_cons]
    rw [decodePayload_cons (i64_as_u8 b) (i64_as_u8 b') (rest.map i64_as_u8)]

/-- Witness for C9: bytes 0 of value 0 and 99 over a zero tail. -/
theorem claim_C9_witness :
    (List.replicate 23 (0 : Int)).length = 23 ∧
    (SensorDataV5.from_dbus_changed_properties
      (mkEnvelope (RefArg.int 0x0499) (0 :: List.replicate 23 0))).toOption.isSome = true ∧
    SensorDataV5.from_dbus_changed_properties
        (mkEnvelope (RefArg.int 0x0499) (0 :: List.replicate 23 0)) =
      SensorDataV5.from_dbus_changed_properties
        (mkEnvelope (RefArg.int 0x0499) (99 :: List.replicate 23 0)) :=
  ⟨by decide,
    claim_C9_format_version_ignored (RefArg.int 0x0499) 0 99 (List.replicate 23 0) (by decide)⟩

/-- C10: for every sensor value with a 16-bit `power_info`, the battery
voltage lies in `[1600, 3647]` mV and the tx power lies in `[-40, 22]` dBm,
with no overflow in the underlying `u16`/`i8` arithmetic. -/
theorem claim_C10_power_ranges (s : SensorDataV5) (h : s.power_info < 65536) :
    1600 ≤ s.get_battery_voltage ∧ s.get_battery_voltage ≤ 3647 ∧
    -40 ≤ s.get_tx_power ∧ s.get_tx_power ≤ 22 := by
  rw [get_battery_voltage_eq s h, get_tx_power_eq s]
  refine ⟨by omega, by omega, by omega, by omega⟩

/-- Witness for C10 at the reference vector's `power_info = 0xAC36`. -/
theorem claim_C10_witness :
    (mkPower 0xAC36).power_info < 65536 ∧
    1600 ≤ (mkPower 0xAC36).get_battery_voltage :=
  ⟨by decide, (claim_C10_power_ranges (mkPower 0xAC36) (by decide)).1⟩

end Ruuviscanner
